import Mathlib

/-!
Verification development for the Frontlive.pl repository.

The repository is a static blog: articles are authored as MDX files with a
front-matter metadata header, and a presentational Author component renders a
fixed profile.  The content-loader query surface (`listPublished`,
`getBySlug`), the front-matter parser and the body renderer are described by
the specification; the source tree here carries the Author component
(`src/components/autor/Autor.tsx`) and an authored article file whose front
matter is

  title: 'React Testing Library - Mock Service Worker'
  category: 'React'
  publishedAt: '28-06-2021'
  isPublished: true
  popular: false
  image: '/images/react-testing-library-msw/rtl-msw.png'
  excerpt: 'MSW to narzędzie nowej geneneracji, ...'

followed by a body of prose, fenced code samples and a `<Newsletter />`
inline directive.
-/

/-- Calendar date as written in front matter (`DD-MM-YYYY`). -/
structure Date where
  day : Nat
  month : Nat
  year : Nat
deriving DecidableEq, Repr

/-- Numeric sort key of a date: later dates get larger keys. -/
def dateKey (d : Date) : Nat :=
  d.year * 10000 + d.month * 100 + d.day

/-- Step of decimal-numeral accumulation: extend the accumulated value by one
digit, failing on a non-digit character. -/
def digitStep (acc : Option Nat) (c : Char) : Option Nat :=
  match acc with
  | some n => if c.isDigit then some (n * 10 + (c.toNat - 48)) else none
  | none => none

/-- Read a nonempty digit string as a natural number, or fail. -/
def digitsToNat (cs : List Char) : Option Nat :=
  if cs.isEmpty then none else cs.foldl digitStep (some 0)

/-- Modelled from the spec: the content loader turns the front-matter string
`DD-MM-YYYY` (e.g. `28-06-2021` in the authored file) into a date value; a
string that is not three dash-separated numerals is malformed. -/
def parseDate (s : String) : Option Date :=
  match (s.toList.splitOn '-').map digitsToNat with
  | [some dd, some mm, some yy] => some ⟨dd, mm, yy⟩
  | _ => none

/-- One block of an article body: prose, a fenced code sample
(language tag plus verbatim text), or an inline directive such as
`<Newsletter />`. -/
inductive Block where
  | prose (text : String)
  | code (lang text : String)
  | directive (name : String)
deriving DecidableEq, Repr

/-- A rendered display node. Code samples keep their text verbatim and are
display-only: no constructor of this type carries executable content. -/
inductive Node where
  | proseView (text : String)
  | codeView (lang text : String)
  | newsletterView
deriving DecidableEq, Repr

/-- Modelled from the spec: the body renderer resolves an inline directive to
its presentational unit; `Newsletter` (the one directive used by the authored
article) resolves to the newsletter-signup widget, anything else is
unresolvable. -/
def resolveDirective (name : String) : Option Node :=
  if name = "Newsletter" then some Node.newsletterView else none

/-- Render one block: prose and code map to their display nodes unchanged;
a directive renders to its resolved widget, or to nothing when unresolvable. -/
def renderBlock : Block → Option Node
  | Block.prose t => some (Node.proseView t)
  | Block.code l t => some (Node.codeView l t)
  | Block.directive n => resolveDirective n

/-- Modelled from the spec: the body renderer is a pure transformation from
the source blocks to the display structure, dropping only the output of
unresolvable directives. -/
def render (body : List Block) : List Node :=
  body.filterMap renderBlock

/-- An article record: slug (stable identifier), the front-matter metadata
fields of the authored file, and the body. -/
structure Article where
  slug : String
  title : String
  category : String
  publishedAt : Date
  isPublished : Bool
  popular : Bool
  image : String
  excerpt : String
  body : List Block
deriving DecidableEq, Repr

/-- Raw front matter of a content file before validation: every key may be
absent. -/
structure RawFrontMatter where
  title : Option String
  category : Option String
  publishedAt : Option String
  isPublished : Option Bool
  popular : Option Bool
  image : Option String
  excerpt : Option String
deriving DecidableEq, Repr

/-- Modelled from the spec: parsing a content file into an `Article` requires
`title`, `category`, `publishedAt`, `isPublished`, `excerpt` to be present
and the date to be well formed; a file failing this is an authoring error and
yields no article. `popular` and `image` are optional. -/
def parseMeta (slug : String) (r : RawFrontMatter) (body : List Block) :
    Option Article :=
  match r.title, r.category, r.publishedAt, r.isPublished, r.excerpt with
  | some t, some c, some p, some pub, some ex =>
    match parseDate p with
    | some d =>
      some { slug := slug, title := t, category := c, publishedAt := d,
             isPublished := pub, popular := r.popular.getD false,
             image := r.image.getD "", excerpt := ex, body := body }
    | none => none
  | _, _, _, _, _ => none

/-- Descending publication-date order on articles: `a` comes before `b`
when the date of `a` is at least the date of `b`. -/
def byDateDesc (a b : Article) : Prop :=
  dateKey b.publishedAt ≤ dateKey a.publishedAt

instance : DecidableRel byDateDesc :=
  fun a b => Nat.decLe (dateKey b.publishedAt) (dateKey a.publishedAt)

instance : IsTotal Article byDateDesc :=
  ⟨fun a b => Nat.le_total (dateKey b.publishedAt) (dateKey a.publishedAt)⟩


instance : IsTrans Article byDateDesc :=
  ⟨fun _ _ _ hab hbc => Nat.le_trans hbc hab⟩

/-- Modelled from the spec: the listing surface filters the content set to
`isPublished = true` and sorts by `publishedAt` descending. -/
def listPublished (arts : List Article) : List Article :=
  List.insertionSort byDateDesc (arts.filter fun a => a.isPublished)

/-- Modelled from the spec: the detail surface addresses an article by its
slug, returning the first article with that identifier or nothing. -/
def getBySlug (arts : List Article) (s : String) : Option Article :=
  arts.find? fun a => a.slug == s

/-- The article authored in the repository
(`content file React Testing Library - Mock Service Worker`), with its front
matter as written and a representative abridgement of its body: prose,
a fenced `ts` code sample, the `<Newsletter />` directive, more prose. -/
def rtlMswArticle : Article :=
  { slug := "react-testing-library-msw"
  , title := "React Testing Library - Mock Service Worker"
  , category := "React"
  , publishedAt := ⟨28, 6, 2021⟩
  , isPublished := true
  , popular := false
  , image := "/images/react-testing-library-msw/rtl-msw.png"
  , excerpt := "MSW to narzędzie nowej geneneracji, które umożliwia łatwiejszą i przyjemniejszą pracę z mockami..."
  , body :=
      [ Block.prose "Pogadajmy przez chwilę o mockowaniu"
      , Block.code "ts" "const players = await match.getAllPlayers();"
      , Block.directive "Newsletter"
      , Block.prose "Do usłyszenia!" ] }

/-- A draft article used by the example scenario of the spec: not published,
dated 2021-07-01. -/
def draftJuly : Article :=
  { slug := "draft-july"
  , title := "Draft"
  , category := "React"
  , publishedAt := ⟨1, 7, 2021⟩
  , isPublished := false
  , popular := false
  , image := ""
  , excerpt := "draft"
  , body := [] }

/-- Social links widget included by the Author component.  Modelled from the
spec: the SocialLinks component source is not under `src/`; the spec fixes it
as a static ordered list of platform/url links, hence a single fixed value. -/
inductive SocialLinksWidget where
  | widget
deriving DecidableEq, Repr

/-- Display structure produced by the Author component. -/
structure AuthorView where
  heading : String
  imageSrc : String
  imageAlt : String
  imageWidth : Nat
  imageHeight : Nat
  imageQuality : Nat
  imagePriority : Bool
  bio : String
  social : SocialLinksWidget
deriving DecidableEq, Repr

/-- The Author component of `src/components/autor/Autor.tsx`: takes no
parameters and renders the fixed portrait, biography paragraph and social
links. -/
def Author (_ : Unit) : AuthorView :=
  { heading := "O autorze"
  , imageSrc := "/images/olaf-circle.png"
  , imageAlt := "Olaf Sulich"
  , imageWidth := 200
  , imageHeight := 200
  , imageQuality := 100
  , imagePriority := true
  , bio := "Olaf jest Frontend Developerem, blogerem i nosi śmieszny kapelusz 🎩 Pisze o wszystkim co związane z frontendem, ale nie boi się backendu i designów 🦾 Ma głowę pełną pomysłów i nadzieję, że znajdziesz tutaj coś dla siebie!"
  , social := SocialLinksWidget.widget }

/-- A second published article, dated 2021-07-01, used to exercise the sort
order of the listing surface. -/
def julyArticle : Article :=
  { slug := "lipiec"
  , title := "Lipiec"
  , category := "React"
  , publishedAt := ⟨1, 7, 2021⟩
  , isPublished := true
  , popular := false
  , image := "/images/lipiec.png"
  , excerpt := "lipiec"
  , body := [] }

/-- Raw front matter of the authored article exactly as written in the
content file, with the date as the string `28-06-2021`. -/
def rtlMswRaw : RawFrontMatter :=
  { title := some "React Testing Library - Mock Service Worker"
  , category := some "React"
  , publishedAt := some "28-06-2021"
  , isPublished := some true
  , popular := some false
  , image := some "/images/react-testing-library-msw/rtl-msw.png"
  , excerpt := some "MSW to narzędzie nowej geneneracji, które umożliwia łatwiejszą i przyjemniejszą pracę z mockami..." }

/-- Raw front matter of the July article, with the date string `01-07-2021`. -/
def julyRaw : RawFrontMatter :=
  { title := some "Lipiec"
  , category := some "React"
  , publishedAt := some "01-07-2021"
  , isPublished := some true
  , popular := some false
  , image := some "/images/lipiec.png"
  , excerpt := some "lipiec" }

/-- C1: every article in the result of `listPublished` has
`isPublished = true`; equivalently no draft ever appears in the listing. -/
theorem listPublished_only_published (arts : List Article) (a : Article)
    (h : a ∈ listPublished arts) : a.isPublished = true := by
  have hmem : a ∈ arts.filter fun x => x.isPublished :=
    ((List.perm_insertionSort byDateDesc _).mem_iff).mp h
  exact (List.mem_filter.mp hmem).2

/-- Witness for C1 at a concrete content set. -/
theorem listPublished_only_published_witness :
    rtlMswArticle.isPublished = true :=
  listPublished_only_published [rtlMswArticle, draftJuly] rtlMswArticle
    (List.mem_singleton_self rtlMswArticle :
      rtlMswArticle ∈ listPublished [rtlMswArticle, draftJuly])

/-- C2: the result of `listPublished` is sorted by `publishedAt` descending:
any element is dated no earlier than its successor. -/
theorem listPublished_sorted_desc (arts : List Article) (i : Nat)
    (a b : Article) (ha : (listPublished arts)[i]? = some a)
    (hb : (listPublished arts)[i + 1]? = some b) :
    dateKey b.publishedAt ≤ dateKey a.publishedAt := by
  obtain ⟨hi, hga⟩ := List.getElem?_eq_some.mp ha
  obtain ⟨hj, hgb⟩ := List.getElem?_eq_some.mp hb
  have hs : List.Sorted byDateDesc (listPublished arts) :=
    List.sorted_insertionSort byDateDesc (arts.filter fun x => x.isPublished)
  have hrel := List.pairwise_iff_getElem.mp hs i (i + 1) hi hj (Nat.lt_succ_self i)
  rw [hga, hgb] at hrel
  exact hrel

/-- Witness for C2: with the June and July published articles, the July one
comes first and the adjacent pair is in descending date order. -/
theorem listPublished_sorted_desc_witness :
    dateKey rtlMswArticle.publishedAt ≤ dateKey julyArticle.publishedAt :=
  listPublished_sorted_desc [rtlMswArticle, julyArticle] 0
    julyArticle rtlMswArticle rfl rfl

/-- C3: rendering a body containing an unresolvable inline directive never
fails: the directive contributes nothing and the rest of the body renders
exactly as if the directive were absent. -/
theorem render_skips_unresolvable (pre post : List Block) (n : String)
    (h : resolveDirective n = none) :
    render (pre ++ Block.directive n :: post) = render (pre ++ post) := by
  simp [render, List.filterMap_append, List.filterMap_cons, renderBlock, h]

/-- Witness for C3 with the unknown directive name `Unknown`. -/
theorem render_skips_unresolvable_witness :
    render ([Block.prose "wstęp"] ++ Block.directive "Unknown" :: [Block.prose "reszta"]) =
      render ([Block.prose "wstęp"] ++ [Block.prose "reszta"]) :=
  render_skips_unresolvable [Block.prose "wstęp"] [Block.prose "reszta"] "Unknown" rfl

/-- C4: `getBySlug` returns an article exactly when its slug matches, signals
not-found when no article has that slug, and under distinct slugs the match
is unique. The returned record is a total `Article` value, never partial. -/
theorem getBySlug_found_or_not (arts : List Article) (s : String) :
    (∀ a, getBySlug arts s = some a → a.slug = s ∧ a ∈ arts) ∧
    (getBySlug arts s = none → ∀ a ∈ arts, a.slug ≠ s) ∧
    (∀ a b, (arts.map Article.slug).Nodup → getBySlug arts s = some a →
      b ∈ arts → b.slug = s → b = a) := by
  refine ⟨?_, ?_, ?_⟩
  · intro a h
    simp only [getBySlug] at h
    have hp := @List.find?_some Article (fun x => x.slug == s) a arts h
    exact ⟨eq_of_beq hp, List.mem_of_find?_eq_some h⟩
  · intro h a ha
    simp only [getBySlug] at h
    have hne := List.find?_eq_none.mp h a ha
    simpa using hne
  · intro a b hn h hb hbs
    simp only [getBySlug] at h
    have ha := List.mem_of_find?_eq_some h
    have hp := @List.find?_some Article (fun x => x.slug == s) a arts h
    have has : a.slug = s := eq_of_beq hp
    exact List.inj_on_of_nodup_map hn hb ha (by rw [hbs, has])

/-- Witness for C4: looking up the authored article by its slug finds it. -/
theorem getBySlug_found_or_not_witness :
    rtlMswArticle.slug = "react-testing-library-msw" ∧
      rtlMswArticle ∈ [rtlMswArticle] :=
  (getBySlug_found_or_not [rtlMswArticle] "react-testing-library-msw").1
    rtlMswArticle rfl

/-- C5: with exactly the two articles of the example scenario, A published and
dated 2021-06-28 and B unpublished and dated 2021-07-01, `listPublished`
returns `[A]` only, whichever way the content set is enumerated. -/
theorem listPublished_example_scenario :
    listPublished [rtlMswArticle, draftJuly] = [rtlMswArticle] ∧
    listPublished [draftJuly, rtlMswArticle] = [rtlMswArticle] :=
  ⟨rfl, rfl⟩

/-- C6: parsing front matter fails (yields no listable article) whenever a
required field is absent or the date is malformed, and any successfully
parsed article had every required field present. -/
theorem parseMeta_requires_fields (slug : String) (r : RawFrontMatter)
    (body : List Block) :
    ((r.title = none ∨ r.category = none ∨ r.publishedAt = none ∨
        r.isPublished = none ∨ r.excerpt = none) →
      parseMeta slug r body = none) ∧
    (∀ p, r.publishedAt = some p → parseDate p = none →
      parseMeta slug r body = none) ∧
    (∀ a, parseMeta slug r body = some a →
      r.title.isSome = true ∧ r.category.isSome = true ∧
        r.publishedAt.isSome = true ∧ r.isPublished.isSome = true ∧
        r.excerpt.isSome = true) := by
  obtain ⟨t, c, p, pub, pop, img, ex⟩ := r
  refine ⟨?_, ?_, ?_⟩
  · intro h
    cases t <;> cases c <;> cases p <;> cases pub <;> cases ex <;>
      simp_all [parseMeta]
  · intro q hq hd
    cases t <;> cases c <;> cases p <;> cases pub <;> cases ex <;>
      simp_all [parseMeta]
  · intro a h
    cases t <;> cases c <;> cases p <;> cases pub <;> cases ex <;>
      simp_all [parseMeta]

/-- Witness for C6: a file missing its title produces no article. -/
theorem parseMeta_requires_fields_witness :
    parseMeta "bez-tytulu"
      { title := none, category := some "React",
        publishedAt := some "28-06-2021", isPublished := some true,
        popular := none, image := none, excerpt := some "opis" } [] = none :=
  (parseMeta_requires_fields "bez-tytulu"
      { title := none, category := some "React",
        publishedAt := some "28-06-2021", isPublished := some true,
        popular := none, image := none, excerpt := some "opis" } []).1
    (Or.inl rfl)

/-- C7: the Author component takes no parameters and is deterministic: any
two invocations produce the identical fixed display structure, with no error
state (the function is total). -/
theorem author_deterministic : ∀ u v : Unit, Author u = Author v :=
  fun _ _ => rfl

/-- C8: the renderer preserves fenced code samples verbatim: every code block
of a body appears in the rendered structure with its language tag and text
unchanged, as a display-only node. -/
theorem render_preserves_code (body : List Block) (l t : String)
    (h : Block.code l t ∈ body) : Node.codeView l t ∈ render body :=
  List.mem_filterMap.mpr ⟨Block.code l t, h, rfl⟩

/-- Witness for C8 on the authored article body. -/
theorem render_preserves_code_witness :
    Node.codeView "ts" "const players = await match.getAllPlayers();" ∈
      render rtlMswArticle.body :=
  render_preserves_code rtlMswArticle.body "ts"
    "const players = await match.getAllPlayers();" (by simp [rtlMswArticle])

/-- C9: body rendering is a pure function of the source text: equal bodies
render to equal display structures, and rendering has no effects beyond its
result. -/
theorem render_pure (b₁ b₂ : List Block) (h : b₁ = b₂) :
    render b₁ = render b₂ :=
  congrArg render h

/-- Witness for C9: two renderings of the authored body agree. -/
theorem render_pure_witness :
    render rtlMswArticle.body = render rtlMswArticle.body :=
  render_pure rtlMswArticle.body rtlMswArticle.body rfl

/-- C10: the front-matter date `28-06-2021` parses to 2021-06-28, the July
string `01-07-2021` parses to 2021-07-01, the raw strings compare
lexicographically in the opposite order to their dates, and `listPublished`
orders the parsed articles chronologically (July first), not by the raw
strings. -/
theorem dates_parsed_not_lexicographic :
    parseDate "28-06-2021" = some ⟨28, 6, 2021⟩ ∧
    parseDate "01-07-2021" = some ⟨1, 7, 2021⟩ ∧
    "01-07-2021" < "28-06-2021" ∧
    dateKey ⟨28, 6, 2021⟩ < dateKey ⟨1, 7, 2021⟩ ∧
    parseMeta "react-testing-library-msw" rtlMswRaw rtlMswArticle.body =
      some rtlMswArticle ∧
    parseMeta "lipiec" julyRaw [] = some julyArticle ∧
    listPublished [rtlMswArticle, julyArticle] = [julyArticle, rtlMswArticle] := by
  refine ⟨by decide, by decide, ?_, by decide, by decide, by decide, rfl⟩
  rw [String.lt_iff_toList_lt]
  decide
